import Mathlib

/-!
Shallow embedding of the decision-and-execution core of the
zhangluoma/option-trading repository, and verification of the spec's
claims about it.

Conventions of the embedding:
* Python floats are modelled as exact rationals (ℚ).
* A fallible call (a signal source whose get_signal may raise) is
  modelled as an `Option`-returning function; `none` stands for a
  raised exception.
* Timestamps, logging and string interpolation are elided: rejection
  reasons keep the fixed prefix of the formatted message, without the
  interpolated numbers.
-/

namespace OptionTrading

/-- Signal type enum from src/signals/base.py (`SignalType`). -/
inductive SignalType where
  | BUY
  | SELL
  | NEUTRAL
  | CLOSE
deriving DecidableEq, Repr

/-- Normalized signal object from src/signals/base.py (`Signal`).
Metadata and timestamp fields are elided; `weight` defaults to 1 as in
the dataclass. -/
structure Signal where
  ticker : String
  asset_type : String
  signal_type : SignalType
  strength : ℚ
  confidence : ℚ
  source : String
  weight : ℚ
deriving DecidableEq, Repr

/-- Score from src/signals/base.py: strength × confidence. -/
def Signal.score (s : Signal) : ℚ :=
  s.strength * s.confidence

/-- Aggregated signal from src/signals/base.py (`AggregatedSignal`),
timestamp elided. -/
structure AggregatedSignal where
  ticker : String
  asset_type : String
  signal_type : SignalType
  strength : ℚ
  confidence : ℚ
  timeframe : String
  contributing_signals : List Signal
  final_score : ℚ
deriving DecidableEq, Repr

/-- Canonical neutral aggregated signal, `AggregatedSignal.neutral` in
src/signals/base.py. -/
def AggregatedSignal.neutral (ticker : String) (asset_type : String) : AggregatedSignal :=
  { ticker := ticker
    asset_type := asset_type
    signal_type := SignalType.NEUTRAL
    strength := 0
    confidence := 1/2
    timeframe := ""
    contributing_signals := []
    final_score := 1/2 }

/-- Mean of a list of rationals (`np.mean`); division by zero yields 0
in ℚ, but every call site below guards for non-empty input. -/
def mean (xs : List ℚ) : ℚ :=
  xs.sum / xs.length

/-- Population variance of a list of rationals (`np.var`). -/
def variance (xs : List ℚ) : ℚ :=
  mean (xs.map (fun x => (x - mean xs) ^ 2))

/-- Directional value of a signal in [0,1], the mapping used by
`SignalAggregator._weighted_average` and `_calculate_consistency` in
src/signals/aggregator.py: BUY ↦ 0.5 + strength·0.5,
SELL ↦ 0.5 − strength·0.5, otherwise 0.5. -/
def directional_value (s : Signal) : ℚ :=
  match s.signal_type with
  | SignalType.BUY => 1/2 + s.strength * (1/2)
  | SignalType.SELL => 1/2 - s.strength * (1/2)
  | _ => 1/2

/-- Consistency-based confidence, `SignalAggregator._calculate_consistency`
in src/signals/aggregator.py. For ≤ 1 signal it returns the signal's own
confidence (0.5 when empty); otherwise max(0, 1 − variance·4) times the
mean confidence. -/
def calculate_consistency (signals : List Signal) : ℚ :=
  if signals.length ≤ 1 then
    ((signals.head?).map Signal.confidence).getD (1/2)
  else
    let scores := signals.map directional_value
    let consistency := max 0 (1 - variance scores * 4)
    consistency * mean (signals.map Signal.confidence)

/-- Weighted-average fusion, `SignalAggregator._weighted_average` in
src/signals/aggregator.py. -/
def weighted_average (signals : List Signal) (ticker : String) (timeframe : String) :
    AggregatedSignal :=
  let weighted_scores := signals.map (fun s => directional_value s * s.confidence * s.weight)
  let total_weight := (signals.map Signal.weight).sum
  let final_score := if total_weight = 0 then 1/2 else weighted_scores.sum / total_weight
  let dir : SignalType × ℚ :=
    if final_score ≥ 0.65 then (SignalType.BUY, (final_score - 1/2) * 2)
    else if final_score ≤ 0.35 then (SignalType.SELL, (1/2 - final_score) * 2)
    else (SignalType.NEUTRAL, 0)
  { ticker := ticker
    asset_type := ((signals.head?).map Signal.asset_type).getD "unknown"
    signal_type := dir.1
    strength := dir.2
    confidence := calculate_consistency signals
    timeframe := timeframe
    contributing_signals := signals
    final_score := final_score }

/-- Majority-vote fusion, `SignalAggregator._majority_vote` in
src/signals/aggregator.py. Python's `max(votes, key=votes.get)` returns
the first key with the maximal vote total in the dict's insertion order
BUY, SELL, NEUTRAL. A CLOSE signal raises KeyError in the source; this
embedding is faithful only for CLOSE-free vote inputs. -/
def majority_vote (signals : List Signal) (ticker : String) (timeframe : String) :
    AggregatedSignal :=
  let vBuy := ((signals.filter (fun s => s.signal_type = SignalType.BUY)).map Signal.weight).sum
  let vSell := ((signals.filter (fun s => s.signal_type = SignalType.SELL)).map Signal.weight).sum
  let vNeutral :=
    ((signals.filter (fun s => s.signal_type = SignalType.NEUTRAL)).map Signal.weight).sum
  let winner : SignalType × ℚ :=
    if vBuy ≥ vSell ∧ vBuy ≥ vNeutral then (SignalType.BUY, vBuy)
    else if vSell ≥ vNeutral then (SignalType.SELL, vSell)
    else (SignalType.NEUTRAL, vNeutral)
  let total_votes := vBuy + vSell + vNeutral
  let strength := if total_votes > 0 then winner.2 / total_votes else 0
  { ticker := ticker
    asset_type := ((signals.head?).map Signal.asset_type).getD "unknown"
    signal_type := winner.1
    strength := strength
    confidence := calculate_consistency signals
    timeframe := timeframe
    contributing_signals := signals
    final_score := strength }

/-- Stable insertion step for sorting signals by descending confidence. -/
def insert_desc (s : Signal) : List Signal → List Signal
  | [] => [s]
  | t :: ts => if s.confidence > t.confidence then s :: t :: ts else t :: insert_desc s ts

/-- Stable sort by descending confidence, modelling Python's
`sorted(signals, key=confidence, reverse=True)`. -/
def sort_by_confidence_desc (signals : List Signal) : List Signal :=
  signals.foldr insert_desc []

/-- Priority fusion, `SignalAggregator._priority` in
src/signals/aggregator.py: pass through the highest-confidence signal.
The source indexes `sorted_signals[0]` and is only reached on non-empty
input (aggregate returns the neutral signal first); the `[]` branch
mirrors that unreachable case with the neutral signal. -/
def priority_fuse (signals : List Signal) (ticker : String) (timeframe : String) :
    AggregatedSignal :=
  match sort_by_confidence_desc signals with
  | [] => AggregatedSignal.neutral ticker ""
  | top :: _ =>
    { ticker := ticker
      asset_type := top.asset_type
      signal_type := top.signal_type
      strength := top.strength
      confidence := top.confidence
      timeframe := timeframe
      contributing_signals := signals
      final_score := top.score }

/-- Fusion policy (`conflict_resolution` configuration value); modelled
as an enum of the three handled policies (an unknown string raises
ValueError in the source and is outside this embedding). -/
inductive ConflictResolution where
  | weighted_average
  | majority_vote
  | priority
deriving DecidableEq, Repr

/-- Aggregator configuration: per-source weights and the fusion policy. -/
structure AggregatorConfig where
  weights : List (String × ℚ)
  conflict_resolution : ConflictResolution
deriving DecidableEq, Repr

/-- Weight lookup `self.weights.get(name, 1.0)`. -/
def weight_for (weights : List (String × ℚ)) (name : String) : ℚ :=
  ((weights.find? (fun p => p.1 = name)).map Prod.snd).getD 1

/-- Registered signal source: a name plus a get_signal function; `none`
models a raised exception. -/
structure SignalSource where
  name : String
  get_signal : String → String → Option Signal

/-- Signal-collection loop of `SignalAggregator.aggregate`: query every
registered source, skip the ones that raise, and stamp each obtained
signal with its configured source weight. -/
def collect_signals (cfg : AggregatorConfig) (sources : List SignalSource)
    (ticker : String) (timeframe : String) : List Signal :=
  sources.filterMap (fun src =>
    (src.get_signal ticker timeframe).map (fun s => { s with weight := weight_for cfg.weights src.name }))

/-- Embeds `SignalAggregator.aggregate` in src/signals/aggregator.py. -/
def aggregate (cfg : AggregatorConfig) (sources : List SignalSource)
    (ticker : String) (timeframe : String) : AggregatedSignal :=
  let signals := collect_signals cfg sources ticker timeframe
  if signals.isEmpty then AggregatedSignal.neutral ticker ""
  else
    match cfg.conflict_resolution with
    | ConflictResolution.weighted_average => weighted_average signals ticker timeframe
    | ConflictResolution.majority_vote => majority_vote signals ticker timeframe
    | ConflictResolution.priority => priority_fuse signals ticker timeframe

/-- Risk-check verdict from src/risk/risk_manager.py (`RiskCheck`). -/
structure RiskCheck where
  approved : Bool
  approved_size : ℚ
  stop_loss : Option ℚ
  take_profit : Option ℚ
  max_loss : ℚ
  reason : String
deriving DecidableEq, Repr

/-- Embeds the `RiskCheck.rejected` classmethod. -/
def RiskCheck.rejected (reason : String) : RiskCheck :=
  { approved := false
    approved_size := 0
    stop_loss := none
    take_profit := none
    max_loss := 0
    reason := reason }

/-- Embeds the `RiskCheck.approved_trade` classmethod. -/
def RiskCheck.approved_trade (size : ℚ) (stop_loss : ℚ) (take_profit : ℚ) (max_loss : ℚ) :
    RiskCheck :=
  { approved := true
    approved_size := size
    stop_loss := some stop_loss
    take_profit := some take_profit
    max_loss := max_loss
    reason := "All checks passed" }

/-- RiskManager configuration fields read in `RiskManager.__init__`.
`riskReward` embeds the source's risk-reward-ratio parameter. -/
structure RMConfig where
  max_open_positions : ℤ
  max_risk_per_trade : ℚ
  max_loss_per_trade_pct : ℚ
  max_total_exposure_pct : ℚ
  max_stop_loss_pct : ℚ
  min_stop_loss_pct : ℚ
  riskReward : ℚ
  daily_loss_limit : ℚ
deriving DecidableEq, Repr

/-- Account summary dict consumed by `RiskManager.check_trade`
(shape of `RiskManager._get_account_summary`). -/
structure AccountSummary where
  total_equity : ℚ
  available_cash : ℚ
  total_position_value : ℚ
  num_positions : ℤ
  open_tickers : List String
  daily_pnl : ℚ
deriving DecidableEq, Repr

/-- Mock account returned by `RiskManager._get_account_summary`. -/
def mock_account_summary : AccountSummary :=
  { total_equity := 7000
    available_cash := 6000
    total_position_value := 1000
    num_positions := 1
    open_tickers := ["GOLD"]
    daily_pnl := -100 }

/-- Stop distance (as a fraction of price) computed inside
`RiskManager._calculate_stop_loss`: the strength-adjusted percentage
clamped into [min_stop_loss_pct, max_stop_loss_pct]. -/
def stop_distance_pct (cfg : RMConfig) (strength : ℚ) : ℚ :=
  let base_stop_pct := cfg.min_stop_loss_pct
  let adjusted_stop_pct :=
    base_stop_pct + (cfg.max_stop_loss_pct - base_stop_pct) * (1 - strength)
  max cfg.min_stop_loss_pct (min adjusted_stop_pct cfg.max_stop_loss_pct)

/-- Embeds `RiskManager._calculate_stop_loss` in src/risk/risk_manager.py. -/
def calculate_stop_loss (cfg : RMConfig) (signal : AggregatedSignal) (current_price : ℚ) : ℚ :=
  let stop_pct := stop_distance_pct cfg signal.strength
  if signal.signal_type = SignalType.BUY then current_price * (1 - stop_pct)
  else current_price * (1 + stop_pct)

/-- Embeds `RiskManager._calculate_take_profit` in src/risk/risk_manager.py. -/
def calculate_take_profit (cfg : RMConfig) (signal : AggregatedSignal)
    (current_price : ℚ) (stop_loss : ℚ) : ℚ :=
  let risk := |current_price - stop_loss|
  let reward := risk * cfg.riskReward
  if signal.signal_type = SignalType.BUY then current_price + reward
  else current_price - reward

/-- Embeds `RiskManager.check_trade` in src/risk/risk_manager.py, with the
account summary passed explicitly (the source awaits
`_get_account_summary`). The reference price is the source's hardcoded
100.0. Rejection reasons keep the fixed prefix of the formatted
message. -/
def check_trade (cfg : RMConfig) (account : AccountSummary) (ticker : String)
    (signal : AggregatedSignal) (proposed_size : ℚ) : RiskCheck :=
  if account.available_cash < proposed_size then
    RiskCheck.rejected "Insufficient cash"
  else if account.num_positions ≥ cfg.max_open_positions then
    RiskCheck.rejected "Max positions reached"
  else
    let max_loss := proposed_size * cfg.max_loss_per_trade_pct
    if max_loss > cfg.max_risk_per_trade then
      RiskCheck.rejected "Risk exceeds limit"
    else if account.total_position_value + proposed_size >
        account.total_equity * cfg.max_total_exposure_pct then
      RiskCheck.rejected "Total exposure exceeds limit"
    else if ticker ∈ account.open_tickers then
      RiskCheck.rejected "Already holding ticker"
    else if account.daily_pnl < -cfg.daily_loss_limit then
      RiskCheck.rejected "Daily loss limit reached"
    else
      let current_price : ℚ := 100
      let stop_loss := calculate_stop_loss cfg signal current_price
      let take_profit := calculate_take_profit cfg signal current_price stop_loss
      RiskCheck.approved_trade proposed_size stop_loss take_profit max_loss

/-- Position side enum from src/trading/base_trader.py. -/
inductive PositionSide where
  | LONG
  | SHORT
deriving DecidableEq, Repr

/-- Position from src/trading/base_trader.py, restricted to the fields
the tracker's exit logic reads (timestamps and ids elided). -/
structure Position where
  ticker : String
  side : PositionSide
  size : ℚ
  entry_price : ℚ
  current_price : ℚ
  stop_loss : Option ℚ
  take_profit : Option ℚ
deriving DecidableEq, Repr

/-- Embeds `Position.update_price`. -/
def Position.update_price (p : Position) (new_price : ℚ) : Position :=
  { p with current_price := new_price }

/-- Embeds `PositionTracker._should_stop_loss` in src/risk/position_tracker.py. -/
def should_stop_loss (p : Position) : Bool :=
  match p.stop_loss with
  | none => false
  | some sl =>
    match p.side with
    | PositionSide.LONG => p.current_price ≤ sl
    | PositionSide.SHORT => p.current_price ≥ sl

/-- Embeds `PositionTracker._should_take_profit` in src/risk/position_tracker.py. -/
def should_take_profit (p : Position) : Bool :=
  match p.take_profit with
  | none => false
  | some tp =>
    match p.side with
    | PositionSide.LONG => p.current_price ≥ tp
    | PositionSide.SHORT => p.current_price ≤ tp

/-- Outcome of one `PositionTracker._check_position` cycle for one
position. -/
inductive CheckAction where
  | closeStopLoss
  | closeTakeProfit
  | closeTimeLimit
  | keep
deriving DecidableEq, Repr

/-- Embeds `PositionTracker._check_position` in src/risk/position_tracker.py:
refresh the price, then test stop-loss, take-profit and the hold-time
limit in that order, returning on the first that fires. The wall-clock
hold-time comparison of `_is_time_limit_exceeded` is abstracted as the
boolean `time_limit_exceeded`. Returns the action taken and the
price-refreshed position. -/
def check_position (p : Position) (new_price : ℚ) (time_limit_exceeded : Bool) :
    CheckAction × Position :=
  let p := p.update_price new_price
  if should_stop_loss p then (CheckAction.closeStopLoss, p)
  else if should_take_profit p then (CheckAction.closeTakeProfit, p)
  else if time_limit_exceeded then (CheckAction.closeTimeLimit, p)
  else (CheckAction.keep, p)

/-- Strategy type enum from src/trading/strategy.py. -/
inductive StrategyType where
  | SENTIMENT_SHORT
  | SENTIMENT_SWING
  | TECHNICAL_TREND
  | FUNDAMENTAL
  | HIGH_FREQUENCY
deriving DecidableEq, Repr

/-- TradingStrategy configuration record from src/trading/strategy.py
(trade-frequency and trailing-stop fields elided where no claim reads
them; `allowed_asset_types` carries the `__post_init__` default
explicitly at each construction site). -/
structure TradingStrategy where
  name : String
  strategy_type : StrategyType
  min_confidence : ℚ
  min_strength : ℚ
  required_signal_sources : List String
  max_hold_hours : ℤ
  base_position_size : ℚ
  stop_loss_pct : ℚ
  take_profit_pct : ℚ
  min_hold_hours : ℤ
  sizing_method : String
  allowed_asset_types : List String
deriving DecidableEq, Repr

/-- Eligibility test inside `StrategyManager.select_strategy`:
asset type allowed and every required signal source present. -/
def strategy_eligible (strategy : TradingStrategy) (signal_sources : List String)
    (asset_type : String) : Bool :=
  strategy.allowed_asset_types.contains asset_type &&
    strategy.required_signal_sources.all (fun src => signal_sources.contains src)

/-- Embeds `StrategyManager.select_strategy` in src/trading/strategy.py: scan
the registered strategies in registration order, collect the eligible
ones, return the first (or none). -/
def select_strategy (strategies : List TradingStrategy) (signal_sources : List String)
    (asset_type : String) : Option TradingStrategy :=
  let candidates := strategies.filter (fun s => strategy_eligible s signal_sources asset_type)
  candidates.head?

/-- Embeds `TradingEngine._calculate_position_size` in src/trading/engine.py:
fixed, kelly, kelly-conservative, with unknown methods falling back to
the fixed base size. -/
def calculate_position_size (signal : AggregatedSignal) (strategy : TradingStrategy) : ℚ :=
  let base_size := strategy.base_position_size
  if strategy.sizing_method = "fixed" then base_size
  else if strategy.sizing_method = "kelly" then
    base_size * (signal.confidence * signal.strength)
  else if strategy.sizing_method = "kelly_conservative" then
    base_size * (signal.confidence * signal.strength * 0.25)
  else base_size

/-- Documented rejection checks of the Risk Manager in the spec's order
(1 insufficient cash, 2 max open positions, 3 per-trade risk, 4 total
exposure, 5 ticker already held, 6 daily loss limit); each entry pairs
the failure condition with the rejection reason. This list is the
spec-side description that `check_trade` is compared against. -/
def documented_checks (cfg : RMConfig) (account : AccountSummary) (ticker : String)
    (proposed_size : ℚ) : List (Bool × String) :=
  [ (decide (account.available_cash < proposed_size), "Insufficient cash"),
    (decide (account.num_positions ≥ cfg.max_open_positions), "Max positions reached"),
    (decide (proposed_size * cfg.max_loss_per_trade_pct > cfg.max_risk_per_trade),
      "Risk exceeds limit"),
    (decide (account.total_position_value + proposed_size >
      account.total_equity * cfg.max_total_exposure_pct), "Total exposure exceeds limit"),
    (decide (ticker ∈ account.open_tickers), "Already holding ticker"),
    (decide (account.daily_pnl < -cfg.daily_loss_limit), "Daily loss limit reached") ]

/-- Reason of the first failing documented check, if any. -/
def first_failing_reason (cfg : RMConfig) (account : AccountSummary) (ticker : String)
    (proposed_size : ℚ) : Option String :=
  ((documented_checks cfg account ticker proposed_size).find? (fun p => p.1)).map Prod.snd

/-- Sample aggregated BUY signal (the one used in the risk manager's
self-test block). -/
def sample_buy_signal : AggregatedSignal :=
  { ticker := "AAPL"
    asset_type := "stock"
    signal_type := SignalType.BUY
    strength := 0.80
    confidence := 0.75
    timeframe := "1h"
    contributing_signals := []
    final_score := 0.77 }

/-- Sample risk configuration (the source's defaults). -/
def sample_config : RMConfig :=
  { max_open_positions := 4
    max_risk_per_trade := 500
    max_loss_per_trade_pct := 0.10
    max_total_exposure_pct := 0.50
    max_stop_loss_pct := 0.12
    min_stop_loss_pct := 0.05
    riskReward := 3
    daily_loss_limit := 1000 }

/-- Configuration with a tight per-trade risk limit. -/
def tight_config : RMConfig :=
  { sample_config with max_risk_per_trade := 50 }

/-- Account with little cash. -/
def poor_account : AccountSummary :=
  { total_equity := 700
    available_cash := 500
    total_position_value := 100
    num_positions := 1
    open_tickers := []
    daily_pnl := 0 }

/-- Claim C1: check_trade evaluates its rejection checks in the
documented order (cash, open positions, per-trade risk, total exposure,
ticker held, daily loss), short-circuiting on the first failure: a
rejection carries the reason of the first failing documented check, an
approval means no documented check fails, and in particular an account
violating both the cash check and the per-trade risk check is rejected
for insufficient cash. -/
theorem check_trade_documented_order (cfg : RMConfig) (account : AccountSummary)
    (ticker : String) (signal : AggregatedSignal) (proposed_size : ℚ) :
    (∀ r, first_failing_reason cfg account ticker proposed_size = some r →
      check_trade cfg account ticker signal proposed_size = RiskCheck.rejected r)
    ∧ (first_failing_reason cfg account ticker proposed_size = none →
      (check_trade cfg account ticker signal proposed_size).approved = true)
    ∧ (account.available_cash < proposed_size →
      proposed_size * cfg.max_loss_per_trade_pct > cfg.max_risk_per_trade →
      check_trade cfg account ticker signal proposed_size =
        RiskCheck.rejected "Insufficient cash") := by
  refine ⟨?_, ?_, ?_⟩
  · intro r hr
    simp only [first_failing_reason, documented_checks, List.find?] at hr
    simp only [check_trade]
    split_ifs with h1 h2 h3 h4 h5 h6 <;> simp_all
  · intro hr
    simp only [first_failing_reason, documented_checks, List.find?] at hr
    simp only [check_trade]
    split_ifs with h1 h2 h3 h4 h5 h6 <;> simp_all [RiskCheck.approved_trade]
  · intro h1 _
    simp [check_trade, h1]

/-- Witness for C1: cash 500 < proposed 1000 and per-trade risk
1000 × 0.10 = 100 > 50 both fail, and the verdict cites insufficient
cash. -/
theorem check_trade_documented_order_witness :
    check_trade tight_config poor_account "AAPL" sample_buy_signal 1000 =
      RiskCheck.rejected "Insufficient cash" :=
  (check_trade_documented_order tight_config poor_account "AAPL" sample_buy_signal 1000).2.2
    (by norm_num [poor_account]) (by norm_num [tight_config, sample_config])

/-- Claim C10: every RiskCheck returned by check_trade satisfies the
invariant that a rejection has zero approved size, no stop or take
profit and zero max loss, while an approval carries the proposed size,
both exit prices, max loss = proposed_size × max_loss_per_trade_pct and
the reason "All checks passed". -/
theorem check_trade_riskcheck_invariant (cfg : RMConfig) (account : AccountSummary)
    (ticker : String) (signal : AggregatedSignal) (proposed_size : ℚ) :
    ((check_trade cfg account ticker signal proposed_size).approved = false →
      (check_trade cfg account ticker signal proposed_size).approved_size = 0
      ∧ (check_trade cfg account ticker signal proposed_size).stop_loss = none
      ∧ (check_trade cfg account ticker signal proposed_size).take_profit = none
      ∧ (check_trade cfg account ticker signal proposed_size).max_loss = 0)
    ∧ ((check_trade cfg account ticker signal proposed_size).approved = true →
      (check_trade cfg account ticker signal proposed_size).approved_size = proposed_size
      ∧ ((check_trade cfg account ticker signal proposed_size).stop_loss).isSome = true
      ∧ ((check_trade cfg account ticker signal proposed_size).take_profit).isSome = true
      ∧ (check_trade cfg account ticker signal proposed_size).max_loss =
          proposed_size * cfg.max_loss_per_trade_pct
      ∧ (check_trade cfg account ticker signal proposed_size).reason = "All checks passed") := by
  simp only [check_trade]
  split_ifs <;> simp [RiskCheck.rejected, RiskCheck.approved_trade]

/-- Witness for C10: against the source's mock account summary the
sample trade is approved with size 1000, both exit prices set, max loss
100 and reason "All checks passed". -/
theorem check_trade_riskcheck_invariant_witness :
    (check_trade sample_config mock_account_summary "AAPL" sample_buy_signal 1000).approved_size
        = 1000
      ∧ ((check_trade sample_config mock_account_summary "AAPL" sample_buy_signal
          1000).stop_loss).isSome = true
      ∧ ((check_trade sample_config mock_account_summary "AAPL" sample_buy_signal
          1000).take_profit).isSome = true
      ∧ (check_trade sample_config mock_account_summary "AAPL" sample_buy_signal 1000).max_loss =
          1000 * sample_config.max_loss_per_trade_pct
      ∧ (check_trade sample_config mock_account_summary "AAPL" sample_buy_signal 1000).reason =
          "All checks passed" :=
  (check_trade_riskcheck_invariant sample_config mock_account_summary "AAPL" sample_buy_signal
    1000).2
    (by
      norm_num [check_trade, sample_config, mock_account_summary, RiskCheck.approved_trade]
      simp [RiskCheck.approved_trade])

/-- Claim C3: the stop distance equals the strength-adjusted formula
clamped to [min_stop_loss_pct, max_stop_loss_pct], stays within those
bounds, is monotonically non-increasing in signal strength, and the
take-profit offset from the reference price equals the stop offset
times the risk-reward multiplier, in the direction given by BUY versus
SELL. -/
theorem stop_loss_take_profit_properties (cfg : RMConfig) (sig : AggregatedSignal) (price : ℚ)
    (hmin : 0 ≤ cfg.min_stop_loss_pct) (hle : cfg.min_stop_loss_pct ≤ cfg.max_stop_loss_pct)
    (hp : 0 ≤ price) :
    stop_distance_pct cfg sig.strength =
      max cfg.min_stop_loss_pct
        (min (cfg.min_stop_loss_pct +
          (cfg.max_stop_loss_pct - cfg.min_stop_loss_pct) * (1 - sig.strength))
          cfg.max_stop_loss_pct)
    ∧ cfg.min_stop_loss_pct ≤ stop_distance_pct cfg sig.strength
    ∧ stop_distance_pct cfg sig.strength ≤ cfg.max_stop_loss_pct
    ∧ (∀ s1 s2 : ℚ, s1 ≤ s2 → stop_distance_pct cfg s2 ≤ stop_distance_pct cfg s1)
    ∧ (sig.signal_type = SignalType.BUY →
        calculate_stop_loss cfg sig price = price * (1 - stop_distance_pct cfg sig.strength)
        ∧ calculate_take_profit cfg sig price (calculate_stop_loss cfg sig price) - price =
            (price - calculate_stop_loss cfg sig price) * cfg.riskReward)
    ∧ (sig.signal_type = SignalType.SELL →
        calculate_stop_loss cfg sig price = price * (1 + stop_distance_pct cfg sig.strength)
        ∧ price - calculate_take_profit cfg sig price (calculate_stop_loss cfg sig price) =
            (calculate_stop_loss cfg sig price - price) * cfg.riskReward) := by
  have hpct : 0 ≤ stop_distance_pct cfg sig.strength :=
    le_trans hmin (le_max_left _ _)
  refine ⟨rfl, le_max_left _ _, ?_, ?_, ?_, ?_⟩
  · exact max_le hle (min_le_right _ _)
  · intro s1 s2 h
    apply max_le_max le_rfl
    apply min_le_min ?_ le_rfl
    have hd : 0 ≤ cfg.max_stop_loss_pct - cfg.min_stop_loss_pct := by linarith
    nlinarith
  · intro hB
    constructor
    · simp [calculate_stop_loss, hB]
    · simp only [calculate_take_profit, calculate_stop_loss, hB, if_pos]
      have h1 : price - price * (1 - stop_distance_pct cfg sig.strength) =
          price * stop_distance_pct cfg sig.strength := by ring
      rw [h1, abs_of_nonneg (mul_nonneg hp hpct)]
      ring
  · intro hS
    constructor
    · simp [calculate_stop_loss, hS]
    · simp [calculate_take_profit, calculate_stop_loss, hS]
      have h1 : price - price * (1 + stop_distance_pct cfg sig.strength) =
          -(price * stop_distance_pct cfg sig.strength) := by ring
      rw [h1, abs_neg, abs_of_nonneg (mul_nonneg hp hpct)]
      ring_nf
      tauto

/-- Witness for C3: with the source's default limits and the sample BUY
signal of strength 0.8, the stop distance lies within [0.05, 0.12]. -/
theorem stop_loss_take_profit_properties_witness :
    sample_config.min_stop_loss_pct ≤ stop_distance_pct sample_config sample_buy_signal.strength
    ∧ stop_distance_pct sample_config sample_buy_signal.strength ≤
        sample_config.max_stop_loss_pct := by
  have h := stop_loss_take_profit_properties sample_config sample_buy_signal 100
    (by norm_num [sample_config]) (by norm_num [sample_config]) (by norm_num)
  exact ⟨h.2.1, h.2.2.1⟩

/-- Claim C4: in a monitoring cycle, after refreshing the price a
position closes on stop-loss exactly when a stop is set and the
boundary-inclusive side condition holds (LONG: price ≤ stop; SHORT:
price ≥ stop), preempting every other exit; otherwise it closes on
take-profit exactly when a take-profit is set and its side condition
holds; and a LONG position with no stop, or with the price strictly
above its stop, never closes on stop-loss. -/
theorem check_position_exit_rules (p : Position) (new_price : ℚ) (tl : Bool) :
    ((check_position p new_price tl).1 = CheckAction.closeStopLoss ↔
      ∃ sl, p.stop_loss = some sl ∧
        ((p.side = PositionSide.LONG ∧ new_price ≤ sl)
          ∨ (p.side = PositionSide.SHORT ∧ sl ≤ new_price)))
    ∧ ((check_position p new_price tl).1 = CheckAction.closeTakeProfit ↔
      ((¬ ∃ sl, p.stop_loss = some sl ∧
          ((p.side = PositionSide.LONG ∧ new_price ≤ sl)
            ∨ (p.side = PositionSide.SHORT ∧ sl ≤ new_price)))
        ∧ ∃ tp, p.take_profit = some tp ∧
            ((p.side = PositionSide.LONG ∧ tp ≤ new_price)
              ∨ (p.side = PositionSide.SHORT ∧ new_price ≤ tp))))
    ∧ (p.side = PositionSide.LONG →
        (p.stop_loss = none ∨ ∀ sl, p.stop_loss = some sl → sl < new_price) →
        (check_position p new_price tl).1 ≠ CheckAction.closeStopLoss) := by
  obtain ⟨tk, side, sz, ep, cp, sl?, tp?⟩ := p
  cases side <;> cases sl? <;> cases tp? <;> cases tl <;>
    simp [check_position, should_stop_loss, should_take_profit, Position.update_price] <;>
    split_ifs <;>
    simp_all

/-- Witness for C4: a LONG position whose stop 92 sits strictly below
the refreshed price 93 does not close on stop-loss. -/
theorem check_position_exit_rules_witness :
    (check_position
      { ticker := "BTC"
        side := PositionSide.LONG
        size := 1000
        entry_price := 100
        current_price := 100
        stop_loss := some 92
        take_profit := none } 93 false).1 ≠ CheckAction.closeStopLoss :=
  (check_position_exit_rules
    { ticker := "BTC"
      side := PositionSide.LONG
      size := 1000
      entry_price := 100
      current_price := 100
      stop_loss := some 92
      take_profit := none } 93 false).2.2 rfl
    (Or.inr (by intro sl h; cases h; norm_num))

/-- Default strategy 1 registered by `StrategyManager`
(`sentiment_short` in src/trading/strategy.py). -/
def sentiment_short : TradingStrategy :=
  { name := "sentiment_short"
    strategy_type := StrategyType.SENTIMENT_SHORT
    min_confidence := 0.80
    min_strength := 0.70
    required_signal_sources := ["sentiment"]
    max_hold_hours := 72
    base_position_size := 800
    stop_loss_pct := 0.08
    take_profit_pct := 0.20
    min_hold_hours := 12
    sizing_method := "fixed"
    allowed_asset_types := ["crypto"] }

/-- Default strategy 2 registered by `StrategyManager`
(`sentiment_swing` in src/trading/strategy.py). -/
def sentiment_swing : TradingStrategy :=
  { name := "sentiment_swing"
    strategy_type := StrategyType.SENTIMENT_SWING
    min_confidence := 0.75
    min_strength := 0.60
    required_signal_sources := ["sentiment"]
    max_hold_hours := 168
    base_position_size := 1200
    stop_loss_pct := 0.12
    take_profit_pct := 0.35
    min_hold_hours := 24
    sizing_method := "kelly_conservative"
    allowed_asset_types := ["stock", "crypto"] }

/-- Default strategy 3 registered by `StrategyManager`
(`technical_trend` in src/trading/strategy.py). -/
def technical_trend : TradingStrategy :=
  { name := "technical_trend"
    strategy_type := StrategyType.TECHNICAL_TREND
    min_confidence := 0.70
    min_strength := 0.60
    required_signal_sources := ["technical", "sentiment"]
    max_hold_hours := 480
    base_position_size := 1500
    stop_loss_pct := 0.15
    take_profit_pct := 0.50
    min_hold_hours := 48
    sizing_method := "dynamic"
    allowed_asset_types := ["stock", "crypto"] }

/-- Registration-ordered default strategy catalog of
`StrategyManager._register_default_strategies`. -/
def default_strategies : List TradingStrategy :=
  [sentiment_short, sentiment_swing, technical_trend]

/-- Claim C9: the proposed position size is base_position_size for the
fixed sizing method, base × confidence × strength for kelly, and
base × confidence × strength × 0.25 for kelly_conservative. -/
theorem calculate_position_size_methods (signal : AggregatedSignal)
    (strategy : TradingStrategy) :
    (strategy.sizing_method = "fixed" →
      calculate_position_size signal strategy = strategy.base_position_size)
    ∧ (strategy.sizing_method = "kelly" →
      calculate_position_size signal strategy =
        strategy.base_position_size * signal.confidence * signal.strength)
    ∧ (strategy.sizing_method = "kelly_conservative" →
      calculate_position_size signal strategy =
        strategy.base_position_size * signal.confidence * signal.strength * 0.25) := by
  refine ⟨?_, ?_, ?_⟩ <;> intro h <;> simp [calculate_position_size, h] <;> ring

/-- Witness for C9: the default sentiment_swing strategy uses
kelly_conservative sizing, so the proposed size is
base × confidence × strength × 0.25. -/
theorem calculate_position_size_methods_witness :
    calculate_position_size sample_buy_signal sentiment_swing =
      sentiment_swing.base_position_size * sample_buy_signal.confidence *
        sample_buy_signal.strength * 0.25 :=
  (calculate_position_size_methods sample_buy_signal sentiment_swing).2.2 rfl

/-- Unfolding step for `select_strategy` over the registration list. -/
theorem select_strategy_cons (a : TradingStrategy) (l : List TradingStrategy)
    (signal_sources : List String) (asset_type : String) :
    select_strategy (a :: l) signal_sources asset_type =
      if strategy_eligible a signal_sources asset_type then some a
      else select_strategy l signal_sources asset_type := by
  simp only [select_strategy, List.filter_cons]
  split_ifs <;> simp

/-- Claim C6: select_strategy returns a strategy exactly when some
registered strategy is eligible (asset type allowed and all required
signal sources present); the returned strategy is eligible and is the
first eligible one in registration order; it returns none exactly when
no strategy is eligible; and repeated calls on the same inputs agree. -/
theorem select_strategy_first_eligible (strategies : List TradingStrategy)
    (signal_sources : List String) (asset_type : String) :
    ((select_strategy strategies signal_sources asset_type).isSome = true ↔
      ∃ s ∈ strategies, strategy_eligible s signal_sources asset_type = true)
    ∧ (∀ s, select_strategy strategies signal_sources asset_type = some s →
        strategy_eligible s signal_sources asset_type = true
        ∧ ∃ pre post, strategies = pre ++ s :: post
            ∧ ∀ t ∈ pre, strategy_eligible t signal_sources asset_type = false)
    ∧ ((select_strategy strategies signal_sources asset_type = none) ↔
      ∀ s ∈ strategies, strategy_eligible s signal_sources asset_type = false)
    ∧ select_strategy strategies signal_sources asset_type =
        select_strategy strategies signal_sources asset_type := by
  induction strategies with
  | nil => simp [select_strategy]
  | cons a l ih =>
    obtain ⟨ih1, ih2, ih3, _⟩ := ih
    cases h : strategy_eligible a signal_sources asset_type with
    | true =>
      refine ⟨?_, ?_, ?_, rfl⟩
      · rw [select_strategy_cons, if_pos h]
        simp only [Option.isSome_some, true_iff]
        exact ⟨a, by simp, h⟩
      · intro s hs
        rw [select_strategy_cons, if_pos h] at hs
        obtain rfl : a = s := by injection hs
        exact ⟨h, [], l, rfl, by simp⟩
      · rw [select_strategy_cons, if_pos h]
        constructor
        · intro hx
          exact absurd hx (by simp)
        · intro hall
          exact absurd (hall a (by simp)) (by simp [h])
    | false =>
      have hne : ¬ (strategy_eligible a signal_sources asset_type = true) := by simp [h]
      refine ⟨?_, ?_, ?_, rfl⟩
      · rw [select_strategy_cons, if_neg hne, ih1]
        constructor
        · rintro ⟨s, hs, he⟩
          exact ⟨s, by simp [hs], he⟩
        · rintro ⟨s, hs, he⟩
          rcases List.mem_cons.mp hs with rfl | hmem
          · exact absurd he (by simp [h])
          · exact ⟨s, hmem, he⟩
      · intro s hs
        rw [select_strategy_cons, if_neg hne] at hs
        obtain ⟨he, pre, post, heq, hall⟩ := ih2 s hs
        refine ⟨he, a :: pre, post, by simp [heq], ?_⟩
        intro t ht
        rcases List.mem_cons.mp ht with rfl | htm
        · exact h
        · exact hall t htm
      · rw [select_strategy_cons, if_neg hne, ih3]
        constructor
        · intro hall s hsmem
          rcases List.mem_cons.mp hsmem with rfl | hm
          · exact h
          · exact hall s hm
        · intro hall s hsmem
          exact hall s (List.mem_cons_of_mem a hsmem)

/-- Witness for C6: with signal sources just sentiment and a crypto
asset, the first registered default strategy (sentiment_short) is
selected, it is eligible, and nothing before it is. -/
theorem select_strategy_first_eligible_witness :
    strategy_eligible sentiment_short ["sentiment"] "crypto" = true :=
  ((select_strategy_first_eligible default_strategies ["sentiment"] "crypto").2.1
    sentiment_short
    (by simp [select_strategy, default_strategies, List.filter_cons, strategy_eligible,
      sentiment_short, sentiment_swing, technical_trend])).1

/-- Collecting signals ignores the sources whose get_signal raises:
restricting to the non-raising sources yields the same signal list. -/
theorem collect_signals_filter (cfg : AggregatorConfig) (sources : List SignalSource)
    (ticker : String) (timeframe : String) :
    collect_signals cfg
        (sources.filter (fun src => (src.get_signal ticker timeframe).isSome)) ticker timeframe
      = collect_signals cfg sources ticker timeframe := by
  induction sources with
  | nil => rfl
  | cons a t ih =>
    cases ha : a.get_signal ticker timeframe with
    | none =>
      simpa [collect_signals, List.filter_cons, List.filterMap_cons, ha] using ih
    | some s =>
      simpa [collect_signals, List.filter_cons, List.filterMap_cons, ha] using ih

/-- Claim C5: aggregate excludes every source whose get_signal raises
(modelled as returning none) and aggregates the rest — dropping the
failing sources does not change the result — and when no source yields
a signal it returns the canonical neutral AggregatedSignal: NEUTRAL,
strength 0, confidence 0.5, final_score 0.5, empty contributing list. -/
theorem aggregate_degrades_gracefully (cfg : AggregatorConfig) (sources : List SignalSource)
    (ticker : String) (timeframe : String) :
    aggregate cfg sources ticker timeframe =
      aggregate cfg (sources.filter (fun src => (src.get_signal ticker timeframe).isSome))
        ticker timeframe
    ∧ ((∀ src ∈ sources, src.get_signal ticker timeframe = none) →
        aggregate cfg sources ticker timeframe = AggregatedSignal.neutral ticker ""
        ∧ (aggregate cfg sources ticker timeframe).signal_type = SignalType.NEUTRAL
        ∧ (aggregate cfg sources ticker timeframe).strength = 0
        ∧ (aggregate cfg sources ticker timeframe).confidence = 1/2
        ∧ (aggregate cfg sources ticker timeframe).final_score = 1/2
        ∧ (aggregate cfg sources ticker timeframe).contributing_signals = []) := by
  constructor
  · simp only [aggregate, collect_signals_filter]
  · intro hall
    have hnil : collect_signals cfg sources ticker timeframe = [] := by
      rw [collect_signals, List.filterMap_eq_nil_iff]
      intro a ha
      simp [hall a ha]
    simp [aggregate, hnil, AggregatedSignal.neutral]

/-- Signal source whose get_signal always raises. -/
def failing_source : SignalSource :=
  { name := "sentiment", get_signal := fun _ _ => none }

/-- Aggregator configuration used in concrete examples. -/
def sample_agg_config : AggregatorConfig :=
  { weights := [("sentiment", 1)], conflict_resolution := ConflictResolution.weighted_average }

/-- Witness for C5: with a single always-raising source, aggregate
returns the canonical neutral signal. -/
theorem aggregate_degrades_gracefully_witness :
    aggregate sample_agg_config [failing_source] "GOLD" "1h" =
        AggregatedSignal.neutral "GOLD" ""
      ∧ (aggregate sample_agg_config [failing_source] "GOLD" "1h").signal_type =
          SignalType.NEUTRAL
      ∧ (aggregate sample_agg_config [failing_source] "GOLD" "1h").strength = 0
      ∧ (aggregate sample_agg_config [failing_source] "GOLD" "1h").confidence = 1/2
      ∧ (aggregate sample_agg_config [failing_source] "GOLD" "1h").final_score = 1/2
      ∧ (aggregate sample_agg_config [failing_source] "GOLD" "1h").contributing_signals = [] :=
  (aggregate_degrades_gracefully sample_agg_config [failing_source] "GOLD" "1h").2
    (by
      intro src h
      rcases List.mem_singleton.mp h with rfl
      rfl)

/-- Directional mapping as the spec words it: BUY maps to
0.5 + strength×0.5, SELL to 0.5 − strength×0.5, NEUTRAL to 0.5. Stated
on the signal type and strength so it can be compared with the code's
`directional_value`. -/
def spec_mapped_value (t : SignalType) (strength : ℚ) : ℚ :=
  match t with
  | SignalType.BUY => 1/2 + strength * (1/2)
  | SignalType.SELL => 1/2 - strength * (1/2)
  | _ => 1/2

/-- The code's directional value agrees with the spec's mapping. -/
theorem directional_value_eq_spec (s : Signal) :
    directional_value s = spec_mapped_value s.signal_type s.strength := by
  cases h : s.signal_type <;> simp [directional_value, spec_mapped_value, h]

/-- Projection of the fused final score out of `weighted_average`. -/
theorem wa_final_score (signals : List Signal) (ticker : String) (timeframe : String) :
    (weighted_average signals ticker timeframe).final_score =
      (if (signals.map Signal.weight).sum = 0 then 1/2
        else (signals.map (fun s => directional_value s * s.confidence * s.weight)).sum /
          (signals.map Signal.weight).sum) := rfl

/-- Projection of the fused signal type out of `weighted_average`. -/
theorem wa_signal_type (signals : List Signal) (ticker : String) (timeframe : String) :
    (weighted_average signals ticker timeframe).signal_type =
      (if (weighted_average signals ticker timeframe).final_score ≥ 0.65 then SignalType.BUY
        else if (weighted_average signals ticker timeframe).final_score ≤ 0.35 then
          SignalType.SELL
        else SignalType.NEUTRAL) := by
  simp only [weighted_average, wa_final_score]
  split_ifs <;> rfl

/-- Projection of the fused strength out of `weighted_average`. -/
theorem wa_strength (signals : List Signal) (ticker : String) (timeframe : String) :
    (weighted_average signals ticker timeframe).strength =
      (if (weighted_average signals ticker timeframe).final_score ≥ 0.65 then
          ((weighted_average signals ticker timeframe).final_score - 1/2) * 2
        else if (weighted_average signals ticker timeframe).final_score ≤ 0.35 then
          (1/2 - (weighted_average signals ticker timeframe).final_score) * 2
        else 0) := by
  simp only [weighted_average, wa_final_score]
  split_ifs <;> rfl

/-- Claim C2 (amended): for every non-empty input list, weighted_average
computes final_score as Σ(mapped value × confidence × weight)/Σ(weight)
(0.5 when Σweight = 0); the fused type is BUY iff final_score ≥ 0.65,
SELL iff ≤ 0.35 and NEUTRAL otherwise; and the fused strength is
|final_score − 0.5| × 2 for BUY and SELL but 0 for NEUTRAL (the original
claim's unconditional |final_score − 0.5| × 2 fails on NEUTRAL). -/
theorem weighted_average_spec (signals : List Signal) (ticker : String) (timeframe : String)
    (_hne : signals ≠ []) :
    (weighted_average signals ticker timeframe).final_score =
      (if (signals.map Signal.weight).sum = 0 then 1/2
        else (signals.map (fun s =>
            spec_mapped_value s.signal_type s.strength * s.confidence * s.weight)).sum /
          (signals.map Signal.weight).sum)
    ∧ ((weighted_average signals ticker timeframe).signal_type = SignalType.BUY ↔
        (weighted_average signals ticker timeframe).final_score ≥ 0.65)
    ∧ ((weighted_average signals ticker timeframe).signal_type = SignalType.SELL ↔
        (weighted_average signals ticker timeframe).final_score ≤ 0.35)
    ∧ ((weighted_average signals ticker timeframe).signal_type = SignalType.NEUTRAL ↔
        (0.35 < (weighted_average signals ticker timeframe).final_score ∧
          (weighted_average signals ticker timeframe).final_score < 0.65))
    ∧ (weighted_average signals ticker timeframe).strength =
        (if (weighted_average signals ticker timeframe).signal_type = SignalType.NEUTRAL then 0
          else |(weighted_average signals ticker timeframe).final_score - 1/2| * 2) := by
  have hmap : (signals.map (fun s => directional_value s * s.confidence * s.weight)) =
      signals.map (fun s => spec_mapped_value s.signal_type s.strength * s.confidence * s.weight) :=
    List.map_congr_left (fun s _ => by rw [directional_value_eq_spec])
  have hty := wa_signal_type signals ticker timeframe
  refine ⟨?_, ?_, ?_, ?_, ?_⟩
  · rw [wa_final_score, hmap]
  · rw [hty]
    split_ifs with h1 h2
    · exact iff_of_true rfl h1
    · exact iff_of_false (by simp) h1
    · exact iff_of_false (by simp) h1
  · rw [hty]
    split_ifs with h1 h2
    · refine iff_of_false (by simp) ?_
      intro h3
      norm_num at h1 h3
      linarith
    · exact iff_of_true rfl h2
    · exact iff_of_false (by simp) h2
  · rw [hty]
    split_ifs with h1 h2
    · refine iff_of_false (by simp) ?_
      rintro ⟨-, hb⟩
      norm_num at h1 hb
      linarith
    · refine iff_of_false (by simp) ?_
      rintro ⟨ha, -⟩
      norm_num at h2 ha
      linarith
    · exact iff_of_true rfl ⟨not_le.mp h2, not_le.mp h1⟩
  · rw [wa_strength]
    by_cases h1 : (weighted_average signals ticker timeframe).final_score ≥ 0.65
    · rw [if_pos h1, hty, if_pos h1,
        if_neg (by simp : ¬ (SignalType.BUY = SignalType.NEUTRAL))]
      rw [abs_of_nonneg (by norm_num at h1 ⊢; linarith)]
    · rw [if_neg h1, hty, if_neg h1]
      by_cases h2 : (weighted_average signals ticker timeframe).final_score ≤ 0.35
      · rw [if_pos h2, if_pos h2,
          if_neg (by simp : ¬ (SignalType.SELL = SignalType.NEUTRAL))]
        rw [abs_of_nonpos (by norm_num at h2 ⊢; linarith)]
        ring
      · rw [if_neg h2, if_neg h2, if_pos rfl]

/-- Weak BUY signal whose fused score lands in the neutral band. -/
def weak_buy : Signal :=
  { ticker := "GOLD"
    asset_type := "stock"
    signal_type := SignalType.BUY
    strength := 1/5
    confidence := 1
    source := "sentiment"
    weight := 1 }

/-- Counterexample for C2 as stated: a single BUY signal of strength
0.2 and confidence 1 fuses to final_score 0.6, which is classified
NEUTRAL, and the code then sets strength to 0 — not to
|final_score − 0.5| × 2 = 0.2 as the claim asserts. -/
theorem weighted_average_strength_counterexample :
    (weighted_average [weak_buy] "GOLD" "1h").final_score = 3/5
    ∧ (weighted_average [weak_buy] "GOLD" "1h").signal_type = SignalType.NEUTRAL
    ∧ (weighted_average [weak_buy] "GOLD" "1h").strength = 0
    ∧ |(weighted_average [weak_buy] "GOLD" "1h").final_score - 1/2| * 2 = 1/5
    ∧ ((0 : ℚ) ≠ 1/5) := by
  have hfs : (weighted_average [weak_buy] "GOLD" "1h").final_score = 3/5 := by
    rw [wa_final_score]
    norm_num [weak_buy, directional_value]
  refine ⟨hfs, ?_, ?_, ?_, by norm_num⟩
  · rw [wa_signal_type, hfs]
    norm_num
  · rw [wa_strength, hfs]
    norm_num
  · rw [hfs]
    rw [show (3:ℚ)/5 - 1/2 = 1/10 by norm_num, abs_of_nonneg (by norm_num : (0:ℚ) ≤ 1/10)]
    norm_num

/-- Witness for C2 (amended): on the concrete weak-BUY input the fused
type is NEUTRAL exactly because the score 0.6 lies in the neutral
band. -/
theorem weighted_average_spec_witness :
    (weighted_average [weak_buy] "GOLD" "1h").signal_type = SignalType.NEUTRAL ↔
      (0.35 < (weighted_average [weak_buy] "GOLD" "1h").final_score ∧
        (weighted_average [weak_buy] "GOLD" "1h").final_score < 0.65) :=
  (weighted_average_spec [weak_buy] "GOLD" "1h" (by simp)).2.2.2.1

/-- Weighted sum collapses when every signal carries the same mapped
value: Σ(value×confidence×weight) = v × Σ(weight). -/
theorem sum_map_value_mul_weight (signals : List Signal) (v : ℚ)
    (h : ∀ s ∈ signals, directional_value s * s.confidence = v) :
    (signals.map (fun s => directional_value s * s.confidence * s.weight)).sum =
      v * (signals.map Signal.weight).sum := by
  induction signals with
  | nil => simp
  | cons a t ih =>
    have ha := h a (by simp)
    have iht := ih (fun s hs => h s (by simp [hs]))
    simp only [List.map_cons, List.sum_cons]
    rw [iht, show directional_value a * a.confidence * a.weight = v * a.weight by rw [ha]]
    ring

/-- Claim C8 (amended): for every non-empty set of input Signals
sharing the same direction, strength and confidence — so that a common
mapped value exists — whose total weight is nonzero, weighted_average's
final_score equals that common mapped value, regardless of how many
sources contribute; when the total weight is zero the final_score is
0.5 instead (which refutes the original unconditional claim). -/
theorem weighted_average_identical_signals (signals : List Signal) (ticker : String)
    (timeframe : String) (ty : SignalType) (st conf : ℚ)
    (_hne : signals ≠ [])
    (hall : ∀ s ∈ signals, s.signal_type = ty ∧ s.strength = st ∧ s.confidence = conf)
    (hw : (signals.map Signal.weight).sum ≠ 0) :
    (weighted_average signals ticker timeframe).final_score = spec_mapped_value ty st * conf := by
  have hsum := sum_map_value_mul_weight signals (spec_mapped_value ty st * conf)
    (fun s hs => by
      obtain ⟨h1, h2, h3⟩ := hall s hs
      rw [directional_value_eq_spec, h1, h2, h3])
  rw [wa_final_score, if_neg hw, hsum, mul_div_assoc, div_self hw, mul_one]

/-- Maximal BUY signal carrying weight 0. -/
def zero_weight_buy : Signal :=
  { ticker := "BTC"
    asset_type := "crypto"
    signal_type := SignalType.BUY
    strength := 1
    confidence := 1
    source := "sentiment"
    weight := 0 }

/-- Counterexample for C8 as stated: a set of identical BUY signals of
strength 1 and confidence 1 has common mapped value 1, yet when the
weights sum to 0 the fused final_score is 0.5, not 1. -/
theorem weighted_average_zero_weight_counterexample :
    zero_weight_buy.signal_type = SignalType.BUY
    ∧ zero_weight_buy.strength = 1
    ∧ zero_weight_buy.confidence = 1
    ∧ spec_mapped_value zero_weight_buy.signal_type zero_weight_buy.strength *
        zero_weight_buy.confidence = 1
    ∧ (weighted_average [zero_weight_buy] "BTC" "1h").final_score = 1/2
    ∧ ((1 : ℚ)/2 ≠ 1) := by
  refine ⟨rfl, rfl, rfl, ?_, ?_, by norm_num⟩
  · norm_num [spec_mapped_value, zero_weight_buy]
  · rw [wa_final_score]
    norm_num [zero_weight_buy]

/-- Strong BUY signal with the default weight. -/
def strong_buy : Signal :=
  { ticker := "BTC"
    asset_type := "crypto"
    signal_type := SignalType.BUY
    strength := 9/10
    confidence := 4/5
    source := "sentiment"
    weight := 1 }

/-- Witness for C8 (amended): three identical strong-BUY signals of
total weight 3 fuse to exactly the common mapped value. -/
theorem weighted_average_identical_signals_witness :
    (weighted_average [strong_buy, strong_buy, strong_buy] "BTC" "1h").final_score =
      spec_mapped_value SignalType.BUY (9/10) * (4/5) :=
  weighted_average_identical_signals [strong_buy, strong_buy, strong_buy] "BTC" "1h"
    SignalType.BUY (9/10) (4/5) (by simp)
    (by
      intro s hs
      simp only [List.mem_cons, List.not_mem_nil, or_false] at hs
      rcases hs with rfl | rfl | rfl <;> exact ⟨rfl, rfl, rfl⟩)
    (by norm_num [strong_buy])

/-- Mean of n copies of x is x, for n ≠ 0. -/
theorem mean_replicate (n : ℕ) (hn : n ≠ 0) (x : ℚ) :
    mean (List.replicate n x) = x := by
  have hn' : (n : ℚ) ≠ 0 := Nat.cast_ne_zero.mpr hn
  unfold mean
  rw [List.sum_replicate, List.length_replicate, nsmul_eq_mul, mul_comm, mul_div_assoc,
    div_self hn', mul_one]

/-- Variance of n copies of x is 0, for n ≠ 0. -/
theorem variance_replicate (n : ℕ) (hn : n ≠ 0) (x : ℚ) :
    variance (List.replicate n x) = 0 := by
  unfold variance
  rw [mean_replicate n hn, List.map_replicate]
  simp [mean, List.sum_replicate]

/-- Claim C7 (amended): the confidence of the weighted_average and
majority_vote fusions is `calculate_consistency`; that consistency
equals the signal's own confidence for a single input (so it is 1.0
only when that confidence is 1.0, refuting the claim's unconditional
1.0), equals the common confidence for N identical inputs, and, at
equal positive mean confidence, strictly decreases as the variance of
the inputs' directional values grows while that variance stays below
1/4 (the point where the consistency factor clamps to 0). -/
theorem consistency_confidence_amended :
    (∀ (signals : List Signal) (ticker timeframe : String),
      (weighted_average signals ticker timeframe).confidence = calculate_consistency signals
      ∧ (majority_vote signals ticker timeframe).confidence = calculate_consistency signals)
    ∧ (∀ s : Signal, calculate_consistency [s] = s.confidence)
    ∧ (∀ (s : Signal) (n : ℕ), 1 ≤ n →
        calculate_consistency (List.replicate n s) = s.confidence)
    ∧ (∀ l1 l2 : List Signal, 2 ≤ l1.length → 2 ≤ l2.length →
        mean (l2.map Signal.confidence) = mean (l1.map Signal.confidence) →
        0 < mean (l1.map Signal.confidence) →
        variance (l1.map directional_value) < variance (l2.map directional_value) →
        variance (l2.map directional_value) * 4 < 1 →
        calculate_consistency l2 < calculate_consistency l1) := by
  refine ⟨fun signals ticker timeframe => ⟨rfl, rfl⟩, fun s => by simp [calculate_consistency],
    ?_, ?_⟩
  · intro s n hn
    match n, hn with
    | 1, _ => simp [calculate_consistency]
    | (k+2), _ =>
      have hv : variance (List.replicate (k+2) (directional_value s)) = 0 :=
        variance_replicate (k+2) (by omega) (directional_value s)
      have hm : mean (List.replicate (k+2) s.confidence) = s.confidence :=
        mean_replicate (k+2) (by omega) s.confidence
      simp [calculate_consistency, List.map_replicate, hv, hm]
  · intro l1 l2 h1 h2 hmean hm hv hv2
    have hc1 : calculate_consistency l1 =
        max 0 (1 - variance (l1.map directional_value) * 4) * mean (l1.map Signal.confidence) := by
      unfold calculate_consistency
      rw [if_neg (by omega)]
    have hc2 : calculate_consistency l2 =
        max 0 (1 - variance (l2.map directional_value) * 4) * mean (l2.map Signal.confidence) := by
      unfold calculate_consistency
      rw [if_neg (by omega)]
    rw [hc1, hc2, hmean]
    have hpos2 : 0 < 1 - variance (l2.map directional_value) * 4 := by linarith
    have hpos1 : 0 < 1 - variance (l1.map directional_value) * 4 := by linarith
    rw [max_eq_right hpos2.le, max_eq_right hpos1.le]
    exact mul_lt_mul_of_pos_right (by linarith) hm

/-- BUY signal of confidence 0.7 and strength 0.5. -/
def conf7_signal : Signal :=
  { ticker := "GOLD"
    asset_type := "stock"
    signal_type := SignalType.BUY
    strength := 1/2
    confidence := 7/10
    source := "sentiment"
    weight := 1 }

/-- Weak BUY signal of confidence 0.7. -/
def weak_buy_conf7 : Signal :=
  { ticker := "GOLD"
    asset_type := "stock"
    signal_type := SignalType.BUY
    strength := 1/5
    confidence := 7/10
    source := "sentiment"
    weight := 1 }

/-- NEUTRAL signal of confidence 0.7. -/
def neutral_conf7 : Signal :=
  { ticker := "GOLD"
    asset_type := "stock"
    signal_type := SignalType.NEUTRAL
    strength := 0
    confidence := 7/10
    source := "trends"
    weight := 1 }

/-- Counterexample for C7 as stated: with exactly one input signal of
confidence 0.7, the consistency-based confidence is 0.7, not 1.0. -/
theorem consistency_single_not_one_counterexample :
    calculate_consistency [conf7_signal] = 7/10 ∧ ((7 : ℚ)/10 ≠ 1) := by
  constructor
  · simp [calculate_consistency, conf7_signal]
  · norm_num

/-- Witness for C7 (amended): two identical signals keep their common
confidence 0.7, and at equal mean confidence a directionally divergent
pair scores strictly lower than an agreeing pair. -/
theorem consistency_confidence_amended_witness :
    calculate_consistency (List.replicate 2 conf7_signal) = conf7_signal.confidence
    ∧ calculate_consistency [weak_buy_conf7, neutral_conf7] <
        calculate_consistency [conf7_signal, conf7_signal] := by
  constructor
  · exact consistency_confidence_amended.2.2.1 conf7_signal 2 (by norm_num)
  · exact consistency_confidence_amended.2.2.2 [conf7_signal, conf7_signal]
      [weak_buy_conf7, neutral_conf7] (by simp) (by simp)
      (by norm_num [mean, conf7_signal, weak_buy_conf7, neutral_conf7])
      (by norm_num [mean, conf7_signal])
      (by norm_num [variance, mean, directional_value, conf7_signal, weak_buy_conf7,
        neutral_conf7])
      (by norm_num [variance, mean, directional_value, weak_buy_conf7, neutral_conf7])

end OptionTrading
